import Mathlib

/-!
Verification development for the CRM update automator (src/script.py).

The embedding models the core reconciliation pipeline of `CRMUpdater`:
`is_data_missing_or_outdated`, `update_contact_with_feedback`, and the
matching / merge / new-contact-synthesis logic of
`process_and_update_contacts`.  Records are modelled after the output of
`normalise_contact_data` / `normalise_submission_data`, i.e. string-keyed
dictionaries in which every canonical key is present (possibly with an
empty-string value).  Consequently a Python `d.get(key, default)` on such
a record always returns the stored value and never the default.

String primitives from Python (`str.strip`, `str.lower`, `str.replace`,
`str.split`) are modelled on the character list of a `String`; whitespace
and lowercasing are the ASCII fragments (the pipeline's data is ASCII
field text).

`datetime.fromisoformat` is modelled after CPython 3.7-3.10: a ten
character `YYYY-MM-DD` calendar date, optionally followed by one
separator character (any character: the code splits away only
`T`-separated suffixes, so e.g. a space-separated time reaches the
parser and is parsed, not ignored) and a time
`HH[:MM[:SS[.fff or .ffffff]]]`, optionally followed by a timezone
offset `+HH:MM[:SS[.ffffff]]` or `-HH:MM[:SS[.ffffff]]` of magnitude
strictly below 24 hours.  Numeric components are modelled as runs of
ASCII digits (the leniencies of Python's `int()`, such as an inner
leading space or plus sign in a two-character slice, are out of model).
A parse yields the value's position on the proleptic Gregorian timeline
in microseconds together with its awareness; Python orders naive
datetimes by their fields, which on valid fields is exactly the
timeline order, compares aware ones by UTC instant, and raises
`TypeError` when one side is aware and the other naive — an exception
the evaluator's `except (ValueError, TypeError)` turns into the same
fail-open `True` as a parse failure.
-/

/-- Canonical contact record, as produced by `normalise_contact_data`. -/
structure Contact where
  id : String
  first : String
  last : String
  email : String
  phone : String
  last_contact_date : String
  last_contact_text : String
  all_contact_text : String
deriving DecidableEq

/-- Canonical submission record, as produced by `normalise_submission_data`. -/
structure Submission where
  id : String
  first : String
  last : String
  email : String
  phone : String
  feedback : String
  submission_date : String
  event : String
  rating : String
deriving DecidableEq

/-- Python `str.strip` on a character list (ASCII whitespace). -/
def pyStripChars (cs : List Char) : List Char :=
  ((cs.dropWhile Char.isWhitespace).reverse.dropWhile Char.isWhitespace).reverse

/-- Python `str.strip`. -/
def pyStrip (s : String) : String :=
  ⟨pyStripChars s.data⟩

/-- Python `str.lower` (ASCII fragment). -/
def pyLower (s : String) : String :=
  ⟨s.data.map Char.toLower⟩

/-- Python `str.replace` for the single-character pattern used by the code:
`date_str.replace('s', '+00:00')` replaces every occurrence of the
character `s` with the six characters `+00:00`. -/
def pyReplaceS (cs : List Char) : List Char :=
  cs.flatMap fun c =>
    if c = 's' then ['+', '0', '0', ':', '0', '0'] else [c]

/-- Python `date_str.split('T')[0]`: the characters before the first `T`. -/
def pySplitT (cs : List Char) : List Char :=
  cs.takeWhile fun c => c ≠ 'T'

/-- Numeric value of a decimal digit character. -/
def digitVal (c : Char) : Nat :=
  c.toNat - 48

/-- Leap-year rule of the proleptic Gregorian calendar (Python `datetime`). -/
def isLeap (y : Nat) : Bool :=
  y % 4 = 0 && (y % 100 ≠ 0 || y % 400 = 0)

/-- Days in a month, as validated by Python's `datetime.date`. -/
def daysInMonth (y m : Nat) : Nat :=
  if m = 2 then (if isLeap y then 29 else 28)
  else if m = 4 ∨ m = 6 ∨ m = 9 ∨ m = 11 then 30
  else 31

/-- A parsed Python `datetime`: its position on the proleptic Gregorian
timeline in microseconds (UTC-adjusted when an offset is present) and
whether it is timezone-aware. -/
structure PyDateTime where
  instant : Int
  aware : Bool
deriving DecidableEq

/-- `int()` of a two-character slice, restricted to ASCII digits. -/
def two_digit_val (c1 c2 : Char) : Option Nat :=
  if c1.isDigit ∧ c2.isDigit then some (digitVal c1 * 10 + digitVal c2) else none

/-- Days in the years before year `y` of the proleptic Gregorian
calendar (Python's `date.toordinal` base). -/
def daysBeforeYear (y : Nat) : Nat :=
  365 * (y - 1) + (y - 1) / 4 + (y - 1) / 400 - (y - 1) / 100

/-- Days in the months of year `y` before month `m`. -/
def daysBeforeMonth (y m : Nat) : Nat :=
  ((List.range (m - 1)).map fun k => daysInMonth y (k + 1)).sum

/-- `date(y, m, d).toordinal() - 1`: days on the proleptic Gregorian
timeline before this date. -/
def toOrdinal (y m d : Nat) : Nat :=
  daysBeforeYear y + daysBeforeMonth y m + (d - 1)

/-- `_parse_isoformat_date` on a ten-character candidate: `YYYY-MM-DD`
with a valid calendar date (year at least 1, Python's
`datetime.MINYEAR`), yielding the day count `toOrdinal y m d`. -/
def parse_date_chars : List Char → Option Nat
  | [y1, y2, y3, y4, h1, m1, m2, h2, d1, d2] =>
    if y1.isDigit ∧ y2.isDigit ∧ y3.isDigit ∧ y4.isDigit ∧ h1 = '-' ∧
       m1.isDigit ∧ m2.isDigit ∧ h2 = '-' ∧ d1.isDigit ∧ d2.isDigit then
      let y := ((digitVal y1 * 10 + digitVal y2) * 10 + digitVal y3) * 10 + digitVal y4
      let m := digitVal m1 * 10 + digitVal m2
      let d := digitVal d1 * 10 + digitVal d2
      if 1 ≤ y ∧ 1 ≤ m ∧ m ≤ 12 ∧ 1 ≤ d ∧ d ≤ daysInMonth y m then
        some (toOrdinal y m d)
      else none
    else none
  | _ => none

/-- The fractional-second part: exactly three digits (milliseconds) or
exactly six digits (microseconds), as `_parse_hh_mm_ss_ff` accepts. -/
def parse_fraction : List Char → Option Nat
  | [a, b, c] =>
    if a.isDigit ∧ b.isDigit ∧ c.isDigit then
      some (((digitVal a * 10 + digitVal b) * 10 + digitVal c) * 1000)
    else none
  | [a, b, c, d, e, f] =>
    if a.isDigit ∧ b.isDigit ∧ c.isDigit ∧ d.isDigit ∧ e.isDigit ∧ f.isDigit then
      some (((((digitVal a * 10 + digitVal b) * 10 + digitVal c) * 10 + digitVal d) * 10
        + digitVal e) * 10 + digitVal f)
    else none
  | _ => none

/-- `_parse_hh_mm_ss_ff`: `HH`, `HH:MM`, `HH:MM:SS`, or `HH:MM:SS.` plus
a three- or six-digit fraction, without range validation (the
constructors validate afterwards). -/
def parse_hh_mm_ss_ff : List Char → Option (Nat × Nat × Nat × Nat)
  | [h1, h2] => do
    let h ← two_digit_val h1 h2
    pure (h, 0, 0, 0)
  | [h1, h2, c1, m1, m2] =>
    if c1 = ':' then do
      let h ← two_digit_val h1 h2
      let m ← two_digit_val m1 m2
      pure (h, m, 0, 0)
    else none
  | [h1, h2, c1, m1, m2, c2, s1, s2] =>
    if c1 = ':' ∧ c2 = ':' then do
      let h ← two_digit_val h1 h2
      let m ← two_digit_val m1 m2
      let s ← two_digit_val s1 s2
      pure (h, m, s, 0)
    else none
  | h1 :: h2 :: c1 :: m1 :: m2 :: c2 :: s1 :: s2 :: c3 :: rest =>
    if c1 = ':' ∧ c2 = ':' ∧ c3 = '.' then do
      let h ← two_digit_val h1 h2
      let m ← two_digit_val m1 m2
      let s ← two_digit_val s1 s2
      let f ← parse_fraction rest
      pure (h, m, s, f)
    else none
  | _ => none

/-- Microseconds represented by parsed time components. -/
def time_comps_to_micros (h m s f : Nat) : Nat :=
  ((h * 60 + m) * 60 + s) * 1000000 + f

/-- The wall-clock time of day: parsed components validated by the
`datetime` constructor (hour below 24, minute and second below 60). -/
def parse_time_of_day (cs : List Char) : Option Nat := do
  let (h, m, s, f) ← parse_hh_mm_ss_ff cs
  if h ≤ 23 ∧ m ≤ 59 ∧ s ≤ 59 then pure (time_comps_to_micros h m s f) else none

/-- A timezone-offset magnitude: `HH:MM`, `HH:MM:SS` or
`HH:MM:SS.ffffff` (lengths 5, 8 and 15, the only ones
`fromisoformat` admits), fed to `timedelta` without per-component
bounds but rejected by `timezone` unless strictly below 24 hours. -/
def parse_tz_offset (cs : List Char) : Option Nat :=
  if cs.length = 5 ∨ cs.length = 8 ∨ cs.length = 15 then do
    let (h, m, s, f) ← parse_hh_mm_ss_ff cs
    let v := time_comps_to_micros h m s f
    if v < 24 * 3600 * 1000000 then pure v else none
  else none

/-- `_parse_isoformat_time`: the time string split at the first `-`
(else the first `+`) into a wall-clock part and a signed offset;
returns microseconds of the day and the offset when one is present. -/
def parse_isoformat_time (cs : List Char) : Option (Nat × Option Int) :=
  if cs.contains '-' then do
    let t ← parse_time_of_day (cs.takeWhile fun c => c ≠ '-')
    let z ← parse_tz_offset ((cs.dropWhile fun c => c ≠ '-').drop 1)
    pure (t, some (-(z : Int)))
  else if cs.contains '+' then do
    let t ← parse_time_of_day (cs.takeWhile fun c => c ≠ '+')
    let z ← parse_tz_offset ((cs.dropWhile fun c => c ≠ '+').drop 1)
    pure (t, some (z : Int))
  else do
    let t ← parse_time_of_day cs
    pure (t, none)

/-- `datetime.fromisoformat` (CPython 3.7-3.10): a ten-character
calendar date alone, or the date, one separator character of any kind,
and a time with optional offset; `none` where Python raises. -/
def pyFromIsoFormat (cs : List Char) : Option PyDateTime :=
  if cs.length = 10 then do
    let o ← parse_date_chars cs
    pure ⟨((o * 86400000000 : Nat) : Int), false⟩
  else if 10 < cs.length then do
    let o ← parse_date_chars (cs.take 10)
    let (t, off) ← parse_isoformat_time (cs.drop 11)
    match off with
    | none => pure ⟨((o * 86400000000 + t : Nat) : Int), false⟩
    | some z => pure ⟨((o * 86400000000 + t : Nat) : Int) - z, true⟩
  else none

/-- The code's date parse:
`datetime.fromisoformat(s.replace('s', '+00:00').split('T')[0])`,
returning `none` where Python raises `ValueError`.  Only `T`-separated
time suffixes are split away; a time after any other separator is
parsed, time-of-day and offset included. -/
def pyParseDate (s : String) : Option PyDateTime :=
  pyFromIsoFormat (pySplitT (pyReplaceS s.data))

/-- Modelled from the claim's wording for C2 ("parsed date-only,
ignoring time/zone suffix"): the leading calendar date of the string
with any suffix ignored, compared against the code's full-datetime
behavior in the C2 counterexample. -/
def claim_date_only (s : String) : Option Nat :=
  parse_date_chars (s.data.take 10)

/-- `CRMUpdater.is_data_missing_or_outdated` (src/script.py lines 152-199).
Rules in source order: missing phone / first / last a submission could
fill; then, for a non-empty feedback, missing `last_contact_date`, and
the date comparison with its fail-open `except` branch.  The `try` block
parses only when both date strings are non-empty; a parse failure of
either string (`ValueError`) returns `True`, and so does comparing an
aware with a naive value (`TypeError`, listed in the same `except`);
otherwise values of equal awareness compare by timeline instant. -/
def is_data_missing_or_outdated (contact : Contact) (submission : Submission) : Bool :=
  if contact.phone = "" ∧ submission.phone ≠ "" then true
  else if contact.first = "" ∧ submission.first ≠ "" then true
  else if contact.last = "" ∧ submission.last ≠ "" then true
  else if submission.feedback ≠ "" then
    if contact.last_contact_date = "" then true
    else if submission.submission_date ≠ "" ∧ contact.last_contact_date ≠ "" then
      match pyParseDate submission.submission_date with
      | none => true
      | some sd =>
        match pyParseDate contact.last_contact_date with
        | none => true
        | some cd =>
          if sd.aware ≠ cd.aware then true
          else decide (cd.instant < sd.instant)
    else false
  else false

/-- The feedback message built by `update_contact_with_feedback`:
"Event feedback" plus optional event and rating decorations. -/
def feedback_text (submission : Submission) : String :=
  let event_info := if submission.event ≠ "" then " about " ++ submission.event else ""
  let rating_info :=
    if submission.rating ≠ "" then " (Rating: " ++ submission.rating ++ ")" else ""
  "Event feedback" ++ event_info ++ ": " ++ submission.feedback ++ rating_info

/-- The history entry appended by a merge: `last_contact_date - feedback_text`
with the new `last_contact_date`, which is the submission's
`submission_date` (see `update_contact_with_feedback`). -/
def new_history_entry (submission : Submission) : String :=
  submission.submission_date ++ " - " ++ feedback_text submission

/-- `CRMUpdater.update_contact_with_feedback` (src/script.py lines 201-245).
Copies the contact, fills empty phone / first / last from the submission,
and, when the feedback is non-empty, rewrites the last-contact fields and
appends a history entry.  Note: the Python source reads
`submission.get('submission_date', datetime.now().strftime('%Y-%m-%d'))`,
but `normalise_submission_data` always stores the `submission_date` key,
so `dict.get` returns the stored value (possibly the empty string) and
the current-date default is dead code; the model therefore uses the
stored `submission_date` directly. -/
def update_contact_with_feedback (contact : Contact) (submission : Submission) : Contact :=
  let u1 := if contact.phone = "" ∧ submission.phone ≠ "" then
    { contact with phone := submission.phone } else contact
  let u2 := if u1.first = "" ∧ submission.first ≠ "" then
    { u1 with first := submission.first } else u1
  let u3 := if u2.last = "" ∧ submission.last ≠ "" then
    { u2 with last := submission.last } else u2
  if submission.feedback ≠ "" then
    let ftext := feedback_text submission
    let new_date := submission.submission_date
    let existing_text := pyStrip u3.all_contact_text
    let new_entry := new_date ++ " - " ++ ftext
    { u3 with
      last_contact_text := ftext
      last_contact_date := new_date
      all_contact_text :=
        if existing_text ≠ "" then existing_text ++ "\n \n " ++ new_entry else new_entry }
  else u3

/-- Append a submission to the bucket of key `k` in an insertion-ordered
association list, creating the bucket at the end if absent (the behaviour
of the Python dict-of-lists construction in `process_and_update_contacts`). -/
def bucketAdd (idx : List (String × List Submission)) (k : String) (sub : Submission) :
    List (String × List Submission) :=
  match idx with
  | [] => [(k, [sub])]
  | (k2, b) :: rest =>
    if k2 = k then (k2, b ++ [sub]) :: rest else (k2, b) :: bucketAdd rest k sub

/-- Lookup of a key in the association list (Python dict indexing). -/
def indexLookup : List (String × List Submission) → String → Option (List Submission)
  | [], _ => none
  | (k2, b) :: rest, k => if k2 = k then some b else indexLookup rest k

/-- Key under which a submission is stored in the id index: its `id`,
skipped when empty. -/
def id_key (sub : Submission) : Option String :=
  if sub.id ≠ "" then some sub.id else none

/-- Key under which a submission is stored in the email index: its
lowercased `email`, skipped when empty. -/
def email_key (sub : Submission) : Option String :=
  if sub.email ≠ "" then some (pyLower sub.email) else none

/-- The dict-of-lists construction of `process_and_update_contacts`
(lines 271-283): one pass over the submissions, appending each to the
bucket of its key when that key is present. -/
def build_index (key : Submission → Option String) (subs : List Submission) :
    List (String × List Submission) :=
  subs.foldl
    (fun idx sub =>
      match key sub with
      | some k => bucketAdd idx k sub
      | none => idx)
    []

/-- `submissions_by_id` of `process_and_update_contacts`. -/
def build_submissions_by_id (subs : List Submission) : List (String × List Submission) :=
  build_index id_key subs

/-- `submissions_by_email` of `process_and_update_contacts`. -/
def build_submissions_by_email (subs : List Submission) : List (String × List Submission) :=
  build_index email_key subs

/-- The match step of the per-contact loop (lines 289-296): the id-index
bucket of the contact's id (when the id is non-empty) followed by the
email-index bucket of the contact's lowercased email (when the email is
non-empty); an absent bucket contributes nothing. -/
def matching_submissions (contact : Contact)
    (by_id by_email : List (String × List Submission)) : List Submission :=
  (if contact.id ≠ "" then (indexLookup by_id contact.id).getD [] else []) ++
  (if contact.email ≠ "" then (indexLookup by_email (pyLower contact.email)).getD [] else [])

/-- The composite deduplication key `(email, feedback, submission_date)`
of the per-contact loop (line 302). -/
def subKey (sub : Submission) : String × String × String :=
  (sub.email, sub.feedback, sub.submission_date)

/-- The dedup loop of lines 298-304: keep a submission when its composite
key has not been seen, in first-seen order. -/
def dedupAux : List (String × String × String) → List Submission → List Submission
  | _, [] => []
  | seen, sub :: rest =>
    if subKey sub ∈ seen then dedupAux seen rest
    else sub :: dedupAux (subKey sub :: seen) rest

/-- `unique_submissions` of the per-contact loop. -/
def unique_submissions (l : List Submission) : List Submission :=
  dedupAux [] l

/-- The per-contact merge fold (lines 307-314): run through the matched
submissions in order, replacing the working contact by
`update_contact_with_feedback` whenever `is_data_missing_or_outdated`
holds for the current working contact. -/
def fold_submissions (contact : Contact) (subs : List Submission) : Contact :=
  subs.foldl
    (fun cur sub =>
      if is_data_missing_or_outdated cur sub then update_contact_with_feedback cur sub
      else cur)
    contact

/-- One contact's pass through the loop body: find matches, deduplicate,
fold the merges. -/
def merge_phase (by_id by_email : List (String × List Submission)) (contact : Contact) :
    Contact :=
  fold_submissions contact (unique_submissions (matching_submissions contact by_id by_email))

/-- `existing_emails` (line 322): lowercased emails of the normalized
(pre-merge) contacts whose email is non-empty. -/
def existing_emails (contacts : List Contact) : List String :=
  (contacts.filter fun c => c.email ≠ "").map fun c => pyLower c.email

/-- `existing_ids` (line 323): ids of the normalized (pre-merge) contacts
whose id is non-empty. -/
def existing_ids (contacts : List Contact) : List String :=
  (contacts.filter fun c => c.id ≠ "").map fun c => c.id

/-- The synthesis guard of lines 330-332: lowercased email non-empty and
not an existing email, id non-empty and not an existing id, and feedback
non-empty. -/
def synth_guard (emails ids : List String) (sub : Submission) : Bool :=
  pyLower sub.email != "" && !(emails.contains (pyLower sub.email)) &&
  sub.id != "" && !(ids.contains sub.id) && sub.feedback != ""

/-- The new contact built at lines 335-348 when the synthesis guard holds;
`n` is the length of `updated_contacts` at that moment (used only by the
placeholder id for an empty submission id).  As in the merge, the
`submission.get('submission_date', ...)` current-date default is dead
because normalization always stores the key, so `last_contact_date` and
the history entry use the stored `submission_date` directly. -/
def new_contact_from (sub : Submission) (n : Nat) : Contact :=
  { id := if sub.id ≠ "" then sub.id else "new-" ++ toString (n + 1)
    first := sub.first
    last := sub.last
    email := sub.email
    phone := sub.phone
    last_contact_date := sub.submission_date
    last_contact_text := feedback_text sub
    all_contact_text := sub.submission_date ++ " - " ++ feedback_text sub }

/-- The synthesis loop of lines 325-351: walk the normalized submissions
in order, appending a new contact for each one satisfying the guard.
`acc` is `updated_contacts`, which the loop extends in place. -/
def add_new_contacts (emails ids : List String) :
    List Contact → List Submission → List Contact
  | acc, [] => acc
  | acc, sub :: rest =>
    if synth_guard emails ids sub then
      add_new_contacts emails ids (acc ++ [new_contact_from sub acc.length]) rest
    else
      add_new_contacts emails ids acc rest

/-- `CRMUpdater.process_and_update_contacts` (lines 247-360) after data
fetch and normalization: the empty-contact-list short circuit (line 255,
`if not crm_contacts: return []`), index building, the per-contact
match / dedup / merge loop, and the synthesis of new contacts from
unmatched submissions. -/
def process_and_update_contacts (contacts : List Contact) (submissions : List Submission) :
    List Contact :=
  if contacts.isEmpty then []
  else
    let by_email := build_submissions_by_email submissions
    let by_id := build_submissions_by_id submissions
    let updated := contacts.map (merge_phase by_id by_email)
    add_new_contacts (existing_emails contacts) (existing_ids contacts) updated submissions


/-- Rules 1-3 of `is_data_missing_or_outdated` in isolation: a missing
contact field (phone, first, or last) that the submission can fill. -/
def missing_field_update (contact : Contact) (submission : Submission) : Bool :=
  (contact.phone == "" && submission.phone != "") ||
  (contact.first == "" && submission.first != "") ||
  (contact.last == "" && submission.last != "")

/-- Modelled from the spec wording of the synthesis step: the new contact
a guarded submission should produce, with id equal to the submission's id
(the placeholder branch of `new_contact_from` being unreachable under the
guard).  Compared against `add_new_contacts` in the C6 theorem. -/
def synthesized_contact (sub : Submission) : Contact :=
  { id := sub.id
    first := sub.first
    last := sub.last
    email := sub.email
    phone := sub.phone
    last_contact_date := sub.submission_date
    last_contact_text := feedback_text sub
    all_contact_text := sub.submission_date ++ " - " ++ feedback_text sub }

/-- Fixture: a contact with a missing phone and an existing history entry. -/
def contactC1 : Contact :=
  ⟨"1", "A", "B", "a@x.com", "", "2024-01-01", "old note", "2024-01-01 - old note"⟩

/-- Fixture: a submission carrying a phone but no feedback. -/
def subC1 : Submission :=
  ⟨"", "", "", "", "555", "", "", "", ""⟩

/-- Fixture: a contact with an untrimmed history and filled fields. -/
def contactC1w : Contact :=
  ⟨"2", "A", "B", "b@x.com", "7", "2020-05-05", "t", "2020-05-05 - t"⟩

/-- Fixture: a submission with feedback and a date. -/
def subC1w : Submission :=
  ⟨"2", "", "", "b@x.com", "", "hi", "2024-02-02", "Meetup", "5"⟩

/-- Fixture: a populated contact last contacted on 2024-01-02. -/
def contactC2c : Contact :=
  ⟨"3", "A", "B", "c@x.com", "9", "2024-01-02", "t", "2024-01-02 - t"⟩

/-- Fixture: a submission dated the same calendar day with a
space-separated time-of-day. -/
def subC2c : Submission :=
  ⟨"3", "", "", "c@x.com", "", "hello", "2024-01-02 10:00:00", "", ""⟩

/-- Fixture: a populated contact last contacted on 2024-01-20. -/
def contactC2w : Contact :=
  ⟨"3", "A", "B", "c@x.com", "9", "2024-01-20", "t", "2024-01-20 - t"⟩

/-- Fixture: a submission with an earlier space-separated timestamp. -/
def subC2w : Submission :=
  ⟨"3", "", "", "c@x.com", "", "hello", "2024-01-15 08:30:00", "", ""⟩

/-- Fixture: a fully populated contact except for its contact history. -/
def contactC3 : Contact :=
  ⟨"1", "A", "B", "a@x.com", "5", "", "", ""⟩

/-- Fixture: a submission whose submission date does not parse. -/
def subC3 : Submission :=
  ⟨"1", "", "", "a@x.com", "", "hi", "junk", "", ""⟩

/-- Fixture: a contact for the idempotence witness. -/
def contactC3w : Contact :=
  ⟨"4", "A", "B", "d@x.com", "5", "", "", ""⟩

/-- Fixture: a submission with a well-formed date. -/
def subC3w : Submission :=
  ⟨"4", "", "", "d@x.com", "", "fine", "2024-01-02", "", ""⟩

/-- Fixture: a populated contact that no submission matches. -/
def contactC4 : Contact :=
  ⟨"1", "A", "B", "a@x.com", "5", "2024-01-01", "t", "2024-01-01 - t"⟩

/-- Fixture: an unmatched submission with feedback and an empty
submission date. -/
def subC4 : Submission :=
  ⟨"9", "", "", "new@x.com", "", "Great event", "", "", ""⟩

/-- Fixture: a contact matched by id for the C6 witness. -/
def contactC6 : Contact :=
  ⟨"1", "A", "B", "a@x.com", "5", "2024-03-03", "t", "2024-03-03 - t"⟩

/-- Fixture: an unmatched submission for the C6 witness. -/
def subC6 : Submission :=
  ⟨"99", "N", "M", "new@x.com", "1", "fb", "2024-01-01", "", ""⟩

/-- Fixture: a contact whose history has a trailing space. -/
def contactC7 : Contact :=
  ⟨"1", "A", "B", "a@x.com", "9", "2020-01-01", "", "x "⟩

/-- Fixture: a submission with feedback and a date, for C7. -/
def subC7 : Submission :=
  ⟨"1", "", "", "", "", "y", "2024-01-01", "", ""⟩

/-- Fixture: a contact with a trimmed history, for the C7 witness. -/
def contactC7w : Contact :=
  ⟨"1", "A", "B", "a@x.com", "9", "2020-01-01", "", "2020-01-01 - z"⟩

/-- Fixture: a contact for the C9 witness. -/
def contactC9 : Contact :=
  ⟨"8", "A", "B", "E@x.com", "", "", "", ""⟩

/-- Fixture: a submission for the C9 witness. -/
def subC9 : Submission :=
  ⟨"8", "C", "D", "e@x.com", "555", "fb", "2024-06-06", "", ""⟩

/-- Fixture: a fully populated contact, for C10. -/
def contactC10 : Contact :=
  ⟨"5", "A", "B", "f@x.com", "123", "2024-01-01", "t", "2024-01-01 - t"⟩

/-- Fixture: a submission with feedback but an empty submission date. -/
def subC10 : Submission :=
  ⟨"5", "X", "Y", "f@x.com", "999", "late feedback", "", "", ""⟩

theorem update_id_eq (contact : Contact) (submission : Submission) :
    (update_contact_with_feedback contact submission).id = contact.id := by
  simp only [update_contact_with_feedback]
  split_ifs <;> rfl

theorem update_email_eq (contact : Contact) (submission : Submission) :
    (update_contact_with_feedback contact submission).email = contact.email := by
  simp only [update_contact_with_feedback]
  split_ifs <;> rfl

theorem update_phone_eq (contact : Contact) (submission : Submission) :
    (update_contact_with_feedback contact submission).phone
      = if contact.phone = "" ∧ submission.phone ≠ "" then submission.phone
        else contact.phone := by
  simp only [update_contact_with_feedback]
  split_ifs <;> simp_all

theorem update_first_eq (contact : Contact) (submission : Submission) :
    (update_contact_with_feedback contact submission).first
      = if contact.first = "" ∧ submission.first ≠ "" then submission.first
        else contact.first := by
  simp only [update_contact_with_feedback]
  split_ifs <;> simp_all

theorem update_last_eq (contact : Contact) (submission : Submission) :
    (update_contact_with_feedback contact submission).last
      = if contact.last = "" ∧ submission.last ≠ "" then submission.last
        else contact.last := by
  simp only [update_contact_with_feedback]
  split_ifs <;> simp_all

theorem update_feedback_fields (contact : Contact) (submission : Submission)
    (hf : submission.feedback ≠ "") :
    (update_contact_with_feedback contact submission).last_contact_date
        = submission.submission_date
      ∧ (update_contact_with_feedback contact submission).last_contact_text
        = feedback_text submission
      ∧ (update_contact_with_feedback contact submission).all_contact_text
        = (if pyStrip contact.all_contact_text = "" then new_history_entry submission
           else pyStrip contact.all_contact_text ++ "\n \n " ++ new_history_entry submission) := by
  simp only [update_contact_with_feedback, new_history_entry]
  split_ifs <;> simp_all

theorem update_no_feedback (contact : Contact) (submission : Submission)
    (hf : submission.feedback = "") :
    (update_contact_with_feedback contact submission).last_contact_date
        = contact.last_contact_date
      ∧ (update_contact_with_feedback contact submission).last_contact_text
        = contact.last_contact_text
      ∧ (update_contact_with_feedback contact submission).all_contact_text
        = contact.all_contact_text := by
  simp only [update_contact_with_feedback]
  split_ifs <;> simp_all

/-- C8: reconciliation with an empty contact list returns the empty list,
with no new contacts synthesized from the submissions. -/
theorem C8_empty_contacts (subs : List Submission) :
    process_and_update_contacts [] subs = [] := rfl

/-- C10: for a contact with non-empty phone, first, last and
last_contact_date, a submission with non-empty feedback but an empty
submission_date never triggers an update. -/
theorem C10_empty_submission_date (c : Contact) (s : Submission)
    (h1 : c.phone ≠ "") (h2 : c.first ≠ "") (h3 : c.last ≠ "")
    (h4 : c.last_contact_date ≠ "") (h5 : s.feedback ≠ "")
    (h6 : s.submission_date = "") :
    is_data_missing_or_outdated c s = false := by
  unfold is_data_missing_or_outdated
  rw [if_neg (by simp [h1]), if_neg (by simp [h2]), if_neg (by simp [h3]),
    if_pos h5, if_neg h4, if_neg (by simp [h6])]

theorem C10_empty_submission_date_witness :
    is_data_missing_or_outdated contactC10 subC10 = false :=
  C10_empty_submission_date contactC10 subC10 (by decide) (by decide) (by decide)
    (by decide) (by decide) (by decide)

/-- C7 counterexample: for a contact whose stored history has a trailing
space, the merge output is not the previous all_contact_text followed by
a separator and the new entry; the previous text is not even an initial
segment of the output, because the code strips it first. -/
theorem C7_append_format_counterexample :
    (update_contact_with_feedback contactC7 subC7).all_contact_text
        = "x\n \n 2024-01-01 - Event feedback: y"
      ∧ (update_contact_with_feedback contactC7 subC7).all_contact_text
        ≠ contactC7.all_contact_text ++ "\n \n " ++ new_history_entry subC7
      ∧ (update_contact_with_feedback contactC7 subC7).all_contact_text.data.take 2
        ≠ contactC7.all_contact_text.data := by decide

/-- C7 amended: the previous all_contact_text is whitespace-stripped
first; the merge output is the stripped previous text, a separator, and
exactly the new entry, and the new entry alone when the stripped
previous text is empty. -/
theorem C7_append_format_amended (c : Contact) (s : Submission)
    (hf : s.feedback ≠ "") :
    (pyStrip c.all_contact_text = "" →
      (update_contact_with_feedback c s).all_contact_text = new_history_entry s)
    ∧ (pyStrip c.all_contact_text ≠ "" →
      (update_contact_with_feedback c s).all_contact_text
        = pyStrip c.all_contact_text ++ "\n \n " ++ new_history_entry s) := by
  have h := (update_feedback_fields c s hf).2.2
  constructor <;> intro hc <;> rw [h] <;> simp [hc]

theorem C7_append_format_witness :
    (update_contact_with_feedback contactC7w subC7).all_contact_text
      = pyStrip contactC7w.all_contact_text ++ "\n \n " ++ new_history_entry subC7 :=
  (C7_append_format_amended contactC7w subC7 (by decide)).2 (by decide)

/-- C1 counterexample: the reconciliation loop applies a merge for a
submission with empty feedback (the missing-phone rule fires), and that
merge appends no history entry at all, not exactly one. -/
theorem C1_merge_history_counterexample :
    is_data_missing_or_outdated contactC1 subC1 = true
      ∧ (update_contact_with_feedback contactC1 subC1).all_contact_text
        = contactC1.all_contact_text
      ∧ contactC1.all_contact_text = "2024-01-01 - old note" := by decide

/-- C1 amended: a merge for a submission with non-empty feedback yields
the whitespace-stripped previous history extended, as an initial
segment, by a separator and exactly one new entry (the entry alone when
the stripped history is empty); a merge for a submission with empty
feedback leaves all_contact_text unchanged.  In particular the stripped
history never shrinks. -/
theorem C1_merge_history_amended (c : Contact) (s : Submission) :
    (s.feedback ≠ "" →
      (update_contact_with_feedback c s).all_contact_text
        = (if pyStrip c.all_contact_text = "" then new_history_entry s
           else pyStrip c.all_contact_text ++ "\n \n " ++ new_history_entry s)
      ∧ (update_contact_with_feedback c s).all_contact_text.data.take
          (pyStrip c.all_contact_text).data.length = (pyStrip c.all_contact_text).data)
    ∧ (s.feedback = "" →
      (update_contact_with_feedback c s).all_contact_text = c.all_contact_text) := by
  constructor
  · intro hf
    have h := (update_feedback_fields c s hf).2.2
    refine ⟨h, ?_⟩
    rw [h]
    by_cases hc : pyStrip c.all_contact_text = ""
    · simp [hc]
    · rw [if_neg hc]
      have : (pyStrip c.all_contact_text ++ "\n \n " ++ new_history_entry s).data
          = (pyStrip c.all_contact_text).data ++ ("\n \n " ++ new_history_entry s).data := by
        simp [String.data_append]
      rw [this, List.take_left]
  · intro hf
    exact (update_no_feedback c s hf).2.2

theorem C1_merge_history_witness :
    (update_contact_with_feedback contactC1w subC1w).all_contact_text
        = (if pyStrip contactC1w.all_contact_text = "" then new_history_entry subC1w
           else pyStrip contactC1w.all_contact_text ++ "\n \n " ++ new_history_entry subC1w)
      ∧ (update_contact_with_feedback contactC1w subC1w).all_contact_text.data.take
          (pyStrip contactC1w.all_contact_text).data.length
        = (pyStrip contactC1w.all_contact_text).data :=
  (C1_merge_history_amended contactC1w subC1w).1 (by decide)

/-- C4: evaluation at the failing input.  For a submission with non-empty
feedback and an empty submission_date, the merge sets last_contact_date
to the empty string, and the synthesized new contact for such an
unmatched submission also gets an empty last_contact_date — not the
current date, because the dict.get default is dead after normalization. -/
theorem C4_empty_date_eval :
    subC4.feedback ≠ "" ∧ subC4.submission_date = ""
      ∧ (update_contact_with_feedback contactC4 subC4).last_contact_date = ""
      ∧ (process_and_update_contacts [contactC4] [subC4]).map Contact.last_contact_date
        = ["2024-01-01", ""] := by decide

/-- C2 counterexample: the program compares full datetimes, not
date-only values.  For a contact last contacted on 2024-01-02 and a
submission dated "2024-01-02 10:00:00" the calendar dates are equal
under the claim's date-only reading and no missing-field rule fires, so
the claim requires false; but the code splits away only a T-separated
suffix, parses the space-separated time-of-day, and 10:00 beats
midnight, so the evaluator returns true. -/
theorem C2_staleness_dates_counterexample :
    claim_date_only subC2c.submission_date
        = claim_date_only contactC2c.last_contact_date
      ∧ (claim_date_only subC2c.submission_date).isSome
      ∧ missing_field_update contactC2c subC2c = false
      ∧ subC2c.feedback ≠ ""
      ∧ is_data_missing_or_outdated contactC2c subC2c = true := by decide

/-- C2 amended: for a submission with non-empty feedback, the staleness
evaluator returns true when the contact's last_contact_date is empty;
when both date strings are non-empty it parses both with fromisoformat
after the replace('s', '+00:00') rewrite and the split at 'T' — so a
time after a non-'T' separator is parsed and compared, not ignored —
and returns true on a parse failure of either string (fail-open), true
when one parsed value is timezone-aware and the other naive (the
comparison's TypeError is caught by the same except), true when the
parsed submission datetime is strictly after the contact's, and false
when the parsed submission datetime is not after the contact's and no
missing-field rule fires. -/
theorem C2_staleness_dates_amended (c : Contact) (s : Submission)
    (hf : s.feedback ≠ "") :
    (c.last_contact_date = "" → is_data_missing_or_outdated c s = true)
    ∧ (s.submission_date ≠ "" → c.last_contact_date ≠ "" →
        ((pyParseDate s.submission_date = none ∨ pyParseDate c.last_contact_date = none) →
          is_data_missing_or_outdated c s = true)
        ∧ (∀ a b : PyDateTime, pyParseDate s.submission_date = some a →
            pyParseDate c.last_contact_date = some b → a.aware ≠ b.aware →
            is_data_missing_or_outdated c s = true)
        ∧ (∀ a b : PyDateTime, pyParseDate s.submission_date = some a →
            pyParseDate c.last_contact_date = some b → a.aware = b.aware →
            b.instant < a.instant → is_data_missing_or_outdated c s = true)
        ∧ (∀ a b : PyDateTime, pyParseDate s.submission_date = some a →
            pyParseDate c.last_contact_date = some b → a.aware = b.aware →
            a.instant ≤ b.instant → missing_field_update c s = false →
            is_data_missing_or_outdated c s = false)) := by
  constructor
  · intro h
    unfold is_data_missing_or_outdated
    split_ifs <;> simp_all
  · intro hsd hlcd
    refine ⟨?_, ?_, ?_, ?_⟩
    · intro hn
      unfold is_data_missing_or_outdated
      rcases hn with hn | hn
      · split_ifs <;> simp_all
      · split_ifs <;> simp_all
        cases pyParseDate s.submission_date <;> rfl
    · intro a b ha hb hne
      unfold is_data_missing_or_outdated
      split_ifs <;> simp_all
    · intro a b ha hb haw hab
      unfold is_data_missing_or_outdated
      split_ifs <;> simp_all
    · intro a b ha hb haw hab hm
      unfold missing_field_update at hm
      simp only [Bool.or_eq_false_iff, Bool.and_eq_false_iff] at hm
      unfold is_data_missing_or_outdated
      split_ifs <;> simp_all

theorem C2_staleness_dates_amended_witness :
    is_data_missing_or_outdated contactC2w subC2w = false :=
  ((C2_staleness_dates_amended contactC2w subC2w (by decide)).2 (by decide)
      (by decide)).2.2.2 ⟨63840904200000000, false⟩ ⟨63841305600000000, false⟩
    (by decide) (by decide) rfl (by decide) (by decide)

/-- C3 counterexample: with a submission whose submission_date does not
parse, reconciling a second time against the first run's output changes
the output again (the fail-open date rule re-fires), even though the
dates did not advance between runs. -/
theorem C3_idempotence_counterexample :
    process_and_update_contacts (process_and_update_contacts [contactC3] [subC3]) [subC3]
      ≠ process_and_update_contacts [contactC3] [subC3] := by decide

/-- C3 amended: a submission whose submission_date parses as a calendar
date no longer satisfies the staleness evaluator against the contact
just updated from it, so such a merge is not re-applied; with an empty
or unparsable submission_date the evaluator can re-fire and the second
run is not a no-op. -/
theorem C3_idempotence_amended (c : Contact) (s : Submission) (d : PyDateTime)
    (h : pyParseDate s.submission_date = some d) :
    is_data_missing_or_outdated (update_contact_with_feedback c s) s = false := by
  have hsd : s.submission_date ≠ "" := by
    intro he
    have h0 : pyParseDate "" = none := rfl
    rw [he, h0] at h
    exact Option.noConfusion h
  have nphone : ¬((update_contact_with_feedback c s).phone = "" ∧ s.phone ≠ "") := by
    rw [update_phone_eq]
    rintro ⟨h1, h2⟩
    split_ifs at h1 with hc
    · exact h2 h1
    · exact hc ⟨h1, h2⟩
  have nfirst : ¬((update_contact_with_feedback c s).first = "" ∧ s.first ≠ "") := by
    rw [update_first_eq]
    rintro ⟨h1, h2⟩
    split_ifs at h1 with hc
    · exact h2 h1
    · exact hc ⟨h1, h2⟩
  have nlast : ¬((update_contact_with_feedback c s).last = "" ∧ s.last ≠ "") := by
    rw [update_last_eq]
    rintro ⟨h1, h2⟩
    split_ifs at h1 with hc
    · exact h2 h1
    · exact hc ⟨h1, h2⟩
  by_cases hf : s.feedback = ""
  · unfold is_data_missing_or_outdated
    rw [if_neg nphone, if_neg nfirst, if_neg nlast, if_neg (by simp [hf])]
  · have hfld := update_feedback_fields c s hf
    unfold is_data_missing_or_outdated
    rw [if_neg nphone, if_neg nfirst, if_neg nlast, if_pos hf, hfld.1,
      if_neg hsd, if_pos ⟨hsd, hsd⟩, h]
    simp

theorem C3_idempotence_witness :
    is_data_missing_or_outdated (update_contact_with_feedback contactC3w subC3w) subC3w
      = false :=
  C3_idempotence_amended contactC3w subC3w ⟨63839750400000000, false⟩ (by decide)

theorem pyLower_eq_empty_iff (s : String) : pyLower s = "" ↔ s = "" := by
  obtain ⟨data⟩ := s
  cases data <;> simp [pyLower, String.ext_iff]

theorem indexLookup_bucketAdd (idx : List (String × List Submission))
    (k k2 : String) (sub : Submission) :
    indexLookup (bucketAdd idx k2 sub) k
      = if k2 = k then some (((indexLookup idx k).getD []) ++ [sub])
        else indexLookup idx k := by
  induction idx with
  | nil => by_cases hk : k2 = k <;> simp [bucketAdd, indexLookup, hk]
  | cons p rest ih =>
    obtain ⟨a, b⟩ := p
    by_cases hak2 : a = k2
    · subst hak2
      by_cases hk : a = k
      · subst hk
        simp [bucketAdd, indexLookup]
      · simp [bucketAdd, indexLookup, hk]
    · by_cases hk : a = k
      · subst hk
        have hne : k2 ≠ a := fun he => hak2 he.symm
        simp [bucketAdd, indexLookup, hak2, hne]
      · simp [bucketAdd, indexLookup, hak2, hk, ih]

theorem indexLookup_build_loop (key : Submission → Option String)
    (subs : List Submission) (acc : List (String × List Submission)) (k : String) :
    (indexLookup
        (subs.foldl
          (fun idx sub =>
            match key sub with
            | some k2 => bucketAdd idx k2 sub
            | none => idx)
          acc)
        k).getD []
      = (indexLookup acc k).getD []
        ++ subs.filter (fun sub => decide (key sub = some k)) := by
  induction subs generalizing acc with
  | nil => simp
  | cons sub rest ih =>
    simp only [List.foldl_cons, List.filter_cons]
    cases hks : key sub with
    | none => rw [ih]; simp [hks]
    | some k2 =>
      rw [ih, indexLookup_bucketAdd]
      by_cases hk : k2 = k
      · subst hk
        simp [hks]
      · simp [hks, hk]

theorem lookup_id_filter (c : Contact) (subs : List Submission) (hid : c.id ≠ "") :
    (indexLookup (build_submissions_by_id subs) c.id).getD []
      = subs.filter (fun sub => decide (sub.id = c.id)) := by
  unfold build_submissions_by_id build_index
  rw [indexLookup_build_loop]
  simp only [indexLookup, Option.getD_none, List.nil_append]
  apply List.filter_congr
  intro sub _
  unfold id_key
  by_cases h : sub.id = ""
  · simp [h]
    exact fun he => hid he.symm
  · simp [h]

theorem lookup_email_filter (c : Contact) (subs : List Submission) (hem : c.email ≠ "") :
    (indexLookup (build_submissions_by_email subs) (pyLower c.email)).getD []
      = subs.filter (fun sub => decide (pyLower sub.email = pyLower c.email)) := by
  unfold build_submissions_by_email build_index
  rw [indexLookup_build_loop]
  simp only [indexLookup, Option.getD_none, List.nil_append]
  apply List.filter_congr
  intro sub _
  unfold email_key
  by_cases h : sub.email = ""
  · simp [h, pyLower]
    intro he
    exact absurd ((pyLower_eq_empty_iff c.email).mp he.symm) hem
  · simp [h]

theorem matching_submissions_filter (c : Contact) (subs : List Submission) :
    matching_submissions c (build_submissions_by_id subs) (build_submissions_by_email subs)
      = (if c.id ≠ "" then subs.filter (fun sub => decide (sub.id = c.id)) else [])
        ++ (if c.email ≠ "" then
              subs.filter (fun sub => decide (pyLower sub.email = pyLower c.email))
            else []) := by
  unfold matching_submissions
  by_cases hid : c.id = "" <;> by_cases hem : c.email = "" <;>
    simp only [hid, hem, ne_eq, not_true_eq_false, not_false_eq_true, if_true, if_false,
      ite_true, ite_false, ite_not]
  · rw [lookup_email_filter c subs hem]
  · rw [lookup_id_filter c subs hid]
  · rw [lookup_id_filter c subs hid, lookup_email_filter c subs hem]

theorem dedupAux_key_spec (l : List Submission) (seen : List (String × String × String)) :
    List.Pairwise (fun a b => subKey a ≠ subKey b) (dedupAux seen l)
      ∧ ∀ a ∈ dedupAux seen l, subKey a ∉ seen := by
  induction l generalizing seen with
  | nil => simp [dedupAux]
  | cons sub rest ih =>
    by_cases hs : subKey sub ∈ seen
    · simpa [dedupAux, hs] using ih seen
    · simp only [dedupAux, if_neg hs]
      obtain ⟨hpw, hmem⟩ := ih (subKey sub :: seen)
      refine ⟨List.Pairwise.cons ?_ hpw, ?_⟩
      · intro b hb heq
        exact hmem b hb (by simp [heq])
      · intro a ha
        rcases List.mem_cons.mp ha with rfl | ha2
        · exact hs
        · exact fun hseen => hmem a ha2 (List.mem_cons_of_mem _ hseen)

theorem dedupAux_sublist (l : List Submission) (seen : List (String × String × String)) :
    (dedupAux seen l).Sublist l := by
  induction l generalizing seen with
  | nil => simp [dedupAux]
  | cons sub rest ih =>
    by_cases hs : subKey sub ∈ seen
    · simp only [dedupAux, if_pos hs]
      exact (ih seen).cons _
    · simp only [dedupAux, if_neg hs]
      exact (ih _).cons₂ _

/-- C5: the match step for a contact returns the submissions with the
contact's id (when the contact id is non-empty) followed by the
submissions with the contact's lowercased email (when the email is
non-empty); the loop then deduplicates that list by the composite key
(email, feedback, submission_date), keeping first-seen order (the result
is a sublist), and no two retained submissions share a composite key. -/
theorem C5_matching_dedup (c : Contact) (subs : List Submission) :
    matching_submissions c (build_submissions_by_id subs) (build_submissions_by_email subs)
        = (if c.id ≠ "" then subs.filter (fun sub => decide (sub.id = c.id)) else [])
          ++ (if c.email ≠ "" then
                subs.filter (fun sub => decide (pyLower sub.email = pyLower c.email))
              else [])
      ∧ List.Pairwise (fun a b => subKey a ≠ subKey b)
          (unique_submissions
            (matching_submissions c (build_submissions_by_id subs)
              (build_submissions_by_email subs)))
      ∧ (unique_submissions
            (matching_submissions c (build_submissions_by_id subs)
              (build_submissions_by_email subs))).Sublist
          (matching_submissions c (build_submissions_by_id subs)
            (build_submissions_by_email subs)) :=
  ⟨matching_submissions_filter c subs,
    (dedupAux_key_spec _ _).1,
    dedupAux_sublist _ _⟩

theorem new_contact_from_of_guard (emails ids : List String) (sub : Submission)
    (h : synth_guard emails ids sub = true) (n : Nat) :
    new_contact_from sub n = synthesized_contact sub := by
  have hid : sub.id ≠ "" := by
    simp only [synth_guard, Bool.and_eq_true, bne_iff_ne, ne_eq] at h
    exact h.1.1.2
  unfold new_contact_from synthesized_contact
  rw [if_pos hid]

theorem add_new_contacts_eq (emails ids : List String) (subs : List Submission)
    (acc : List Contact) :
    add_new_contacts emails ids acc subs
      = acc ++ (subs.filter (synth_guard emails ids)).map synthesized_contact := by
  induction subs generalizing acc with
  | nil => simp [add_new_contacts]
  | cons sub rest ih =>
    by_cases h : synth_guard emails ids sub = true
    · simp only [add_new_contacts, if_pos h, List.filter_cons, h, List.map_cons, ite_true]
      rw [ih, new_contact_from_of_guard emails ids sub h acc.length]
      simp
    · simp only [Bool.not_eq_true] at h
      simp only [add_new_contacts, h, if_false, List.filter_cons, Bool.false_eq_true,
        ite_false]
      rw [ih]

theorem process_decomposition (contacts : List Contact) (subs : List Submission)
    (h : contacts ≠ []) :
    process_and_update_contacts contacts subs
      = contacts.map
          (merge_phase (build_submissions_by_id subs) (build_submissions_by_email subs))
        ++ (subs.filter (synth_guard (existing_emails contacts) (existing_ids contacts))).map
            synthesized_contact := by
  unfold process_and_update_contacts
  rw [if_neg (by simpa [List.isEmpty_iff] using h)]
  exact add_new_contacts_eq _ _ _ _

/-- C6: the reconciliation output is the merged original contacts
followed by one synthesized contact for exactly the submissions passing
the guard — lowercased email non-empty and not an original contact
email, id non-empty and not an original contact id, feedback non-empty —
and every synthesized contact's id is the submission's id (the
placeholder id branch is unreachable under the guard, see
`synthesized_contact`). -/
theorem C6_new_contact_guard (contacts : List Contact) (subs : List Submission)
    (h : contacts ≠ []) :
    process_and_update_contacts contacts subs
        = contacts.map
            (merge_phase (build_submissions_by_id subs) (build_submissions_by_email subs))
          ++ (subs.filter (synth_guard (existing_emails contacts) (existing_ids contacts))).map
              synthesized_contact
      ∧ ∀ sub : Submission,
          synth_guard (existing_emails contacts) (existing_ids contacts) sub = true
            ↔ (sub.email ≠ "" ∧ pyLower sub.email ∉ existing_emails contacts
               ∧ sub.id ≠ "" ∧ sub.id ∉ existing_ids contacts ∧ sub.feedback ≠ "") := by
  constructor
  · exact process_decomposition contacts subs h
  · intro sub
    simp [synth_guard, pyLower_eq_empty_iff]
    tauto

theorem C6_new_contact_guard_witness :
    process_and_update_contacts [contactC6] [subC6]
      = [contactC6].map
          (merge_phase (build_submissions_by_id [subC6]) (build_submissions_by_email [subC6]))
        ++ ([subC6].filter
              (synth_guard (existing_emails [contactC6]) (existing_ids [contactC6]))).map
            synthesized_contact :=
  (C6_new_contact_guard [contactC6] [subC6] (by decide)).1

theorem fold_preserves_keys (subs : List Submission) (c : Contact) :
    (fold_submissions c subs).id = c.id ∧ (fold_submissions c subs).email = c.email := by
  induction subs generalizing c with
  | nil => exact ⟨rfl, rfl⟩
  | cons sub rest ih =>
    unfold fold_submissions
    simp only [List.foldl_cons]
    have hstep :
        (if is_data_missing_or_outdated c sub then update_contact_with_feedback c sub
         else c).id = c.id
        ∧ (if is_data_missing_or_outdated c sub then update_contact_with_feedback c sub
           else c).email = c.email := by
      split_ifs
      · exact ⟨update_id_eq c sub, update_email_eq c sub⟩
      · exact ⟨rfl, rfl⟩
    obtain ⟨h1, h2⟩ :=
      ih (if is_data_missing_or_outdated c sub then update_contact_with_feedback c sub else c)
    exact ⟨h1.trans hstep.1, h2.trans hstep.2⟩

theorem merge_phase_preserves_keys (by_id by_email : List (String × List Submission))
    (c : Contact) :
    (merge_phase by_id by_email c).id = c.id
      ∧ (merge_phase by_id by_email c).email = c.email :=
  fold_preserves_keys _ c

/-- C9: a merge never changes the id or email of the contact (the input
record itself is untouched, the merge returning an updated copy), and
the original contacts' positions of the reconciliation output keep the
identity keys — id and lowercased email — the normalized inputs had. -/
theorem C9_identity_keys (contacts : List Contact) (subs : List Submission)
    (c : Contact) (s : Submission) :
    (update_contact_with_feedback c s).id = c.id
      ∧ (update_contact_with_feedback c s).email = c.email
      ∧ (contacts ≠ [] →
          ((process_and_update_contacts contacts subs).take contacts.length).map
              (fun x => (x.id, pyLower x.email))
            = contacts.map (fun x => (x.id, pyLower x.email))) := by
  refine ⟨update_id_eq c s, update_email_eq c s, ?_⟩
  intro h
  rw [process_decomposition contacts subs h]
  have hlen : contacts.length
      = (contacts.map
          (merge_phase (build_submissions_by_id subs)
            (build_submissions_by_email subs))).length :=
    (List.length_map _ _).symm
  rw [hlen, List.take_left, List.map_map]
  apply List.map_congr_left
  intro a _
  obtain ⟨h1, h2⟩ :=
    merge_phase_preserves_keys (build_submissions_by_id subs)
      (build_submissions_by_email subs) a
  simp [h1, h2]

theorem C9_identity_keys_witness :
    ((process_and_update_contacts [contactC9] [subC9]).take 1).map
        (fun x => (x.id, pyLower x.email))
      = [contactC9].map (fun x => (x.id, pyLower x.email)) :=
  (C9_identity_keys [contactC9] [subC9] contactC9 subC9).2.2 (by decide)
